import Mathlib

/-!
Verification development for the self-updating runtime bootstrap and
integrity-verified update system (app/runtime.py, app/updater.py,
src/model_update.py).

Python strings are modelled as `List Char`; machine effects (network,
hashing, filesystem) are modelled as explicit oracle values threaded
through the translated functions.
-/

set_option maxRecDepth 4000

/-- Convert a Lean string literal to the `List Char` model of Python strings. -/
def lit (s : String) : List Char := s.toList

/-- The ASCII whitespace characters recognised by Python `str.strip()`
(space, tab, newline, carriage return, vertical tab, form feed), identified
by code point. -/
def pySpace (c : Char) : Bool :=
  c.toNat = 32 || c.toNat = 9 || c.toNat = 10 || c.toNat = 13 ||
    c.toNat = 11 || c.toNat = 12

/-- Python `str.strip()`: drop whitespace from both ends. -/
def strip (s : List Char) : List Char :=
  ((s.dropWhile pySpace).reverse.dropWhile pySpace).reverse

/-- Lowercase a single ASCII character, as Python `str.lower()` does on ASCII. -/
def lowerChar (c : Char) : Char :=
  if 65 ≤ c.toNat ∧ c.toNat ≤ 90 then Char.ofNat (c.toNat + 32) else c

/-- Python `str.lower()` on the ASCII fragment. -/
def lower (s : List Char) : List Char := s.map lowerChar

/-- One character of the class `[0-9]` (the ASCII decimal digits matched by
the regex class `\d` on this fragment). -/
def isDigitChar (c : Char) : Bool := 48 ≤ c.toNat && c.toNat ≤ 57

/-- Python `version.split(".")`: split a character list on the dot character. -/
def splitDot : List Char → List (List Char)
  | [] => [[]]
  | c :: rest =>
    match splitDot rest with
    | [] => [[]]
    | p :: ps => if c = '.' then [] :: p :: ps else (c :: p) :: ps

/-- Python `int(part)` on a string of decimal digits. -/
def digitsToNat (p : List Char) : Nat :=
  p.foldl (fun a c => a * 10 + (c.toNat - 48)) 0

/-- The check `re.fullmatch(r"\d+(?:\.\d+)*", version)` together with the
`not version` guard in `runtime.parse_version`: the string is non-empty and
every dot-separated part is a non-empty run of decimal digits. -/
def versionFormatOk (s : List Char) : Bool :=
  decide (s ≠ []) && (splitDot s).all (fun p => decide (p ≠ []) && p.all isDigitChar)

/-- Model of `runtime.parse_version`: returns the tuple of integer components, or
`none` where the Python code raises `ValueError`. -/
def parse_version (s : List Char) : Option (List Nat) :=
  if versionFormatOk s then some ((splitDot s).map digitsToNat) else none

/-- Python tuple comparison `>` on integer tuples (lexicographic). -/
def tupleGt : List Nat → List Nat → Bool
  | _ :: _, [] => true
  | [], _ => false
  | a :: as, b :: bs => a > b || (a == b && tupleGt as bs)

/-- Right-pad an integer tuple with zeros to length `n`
(`local + (0,) * (length - len(local))`). -/
def zpad (l : List Nat) (n : Nat) : List Nat :=
  l ++ List.replicate (n - l.length) 0

/-- Model of `runtime.is_remote_newer`: parse both versions, right-pad with zeros to a
common length and compare tuples; `none` models the `ValueError` escaping when
either string does not parse. -/
def is_remote_newer (local_version remote_version : List Char) : Option Bool :=
  match parse_version local_version, parse_version remote_version with
  | some lv, some rv =>
    let n := max lv.length rv.length
    some (tupleGt (zpad rv n) (zpad lv n))
  | _, _ => none

/-- Model of `updater._normalize_compare_version`: falsy or `"unknown"` versions and
versions on which strict parsing raises are replaced by `"0.0.0"`. -/
def normalize_compare_version (version : List Char) : List Char :=
  if version = [] ∨ version = lit (r"unknown") then lit (r"0.0.0")
  else
    match is_remote_newer (lit (r"0.0.0")) version with
    | some _ => version
    | none => lit (r"0.0.0")

/-! ### Manifest model (`updater.validate_manifest`) -/

/-- A JSON field of the raw manifest dict: absent, present but not a string,
or a string value. -/
inductive JField
  | absent
  | nonString
  | str (s : List Char)
deriving DecidableEq

/-- The raw manifest dict restricted to the three fields the code reads. -/
structure RawManifest where
  runtime_version : JField
  payload_url : JField
  payload_sha256 : JField
deriving DecidableEq

/-- The distinct `ManifestError` raises in `validate_manifest`. -/
inductive ManifestErr
  | fieldMissingOrInvalid
  | runtimeVersionInvalid
  | sha256NotHex64
  | urlNotHttps
deriving DecidableEq

/-- The per-field test `isinstance(value, str) and value.strip()`. -/
def fieldOkNonBlank : JField → Bool
  | .str s => decide (strip s ≠ [])
  | _ => false

/-- Read a manifest field known to be a string (defaults to the empty string,
unreachable after the field checks pass). -/
def getStr : JField → List Char
  | .str s => s
  | _ => []

/-- One character of the class `[0-9a-f]`. -/
def isHexLowerChar (c : Char) : Bool := isDigitChar c || (97 ≤ c.toNat && c.toNat ≤ 102)

/-- Model of `updater.validate_manifest`, with checks in source order: the three
required fields must be non-blank strings, `runtime_version` must satisfy
strict dotted-number parsing (probed via `is_remote_newer("0.0.0", ·)`),
the stripped and lowercased `payload_sha256` must match `[0-9a-f]{64}`, and
`payload_url` must start with `https://`. -/
def validate_manifest (m : RawManifest) : Except ManifestErr Unit :=
  if ¬ fieldOkNonBlank m.runtime_version then .error .fieldMissingOrInvalid
  else if ¬ fieldOkNonBlank m.payload_url then .error .fieldMissingOrInvalid
  else if ¬ fieldOkNonBlank m.payload_sha256 then .error .fieldMissingOrInvalid
  else if (is_remote_newer (lit (r"0.0.0")) (getStr m.runtime_version)).isNone then
    .error .runtimeVersionInvalid
  else if ¬ ((lower (strip (getStr m.payload_sha256))).length = 64 ∧
      (lower (strip (getStr m.payload_sha256))).all isHexLowerChar) then
    .error .sha256NotHex64
  else if ¬ (lit (r"https://")).isPrefixOf (getStr m.payload_url) then .error .urlNotHttps
  else .ok ()

/-! ### Integrity-verified downloader (`updater.download_payload_with_hash`) -/

/-- Payload byte streams are abstracted by an identifier; the sha256 digest of
a stream is supplied by an oracle function. -/
abbrev Bytes := Nat

/-- Outcome of `_download_with_progress`: a transport failure possibly leaving
partially written fresh bytes at the destination, or a completed download. -/
inductive DownloadOutcome
  | fail (err : List Char) (leftover : Option Bytes)
  | ok (payload : Bytes)
deriving DecidableEq

/-- The exceptions `download_payload_with_hash` can raise. -/
inductive DlExc
  | networkExc (msg : List Char)
  | integrityExc (msg : List Char)
deriving DecidableEq

/-- The message of the `IntegrityError` raise:
`f"Payload hash mismatch. expected={expected} actual={actual}"`. -/
def hashMismatchMsg (expected actual : List Char) : List Char :=
  lit (r"Payload hash mismatch. expected=") ++ expected ++ lit (r" actual=") ++ actual

/-- Model of `updater.download_payload_with_hash`. `sha256hex` is the digest oracle
(`hashlib.sha256(...).hexdigest()`), `net` the transport outcome, `dest0` the
destination file content before the call. The returned pair is the destination
file content after the call and the exception raised, if any.
The code deletes any existing destination file before downloading
(`if dest.exists(): dest.unlink()`), and `open(dest, "wb")` truncates, so the
outcome never depends on `dest0`. On a hash mismatch the code raises after
hashing, leaving the downloaded bytes in place at `dest`. -/
def download_payload_with_hash (sha256hex : Bytes → List Char) (net : DownloadOutcome)
    (expected_sha256 : List Char) (dest0 : Option Bytes) :
    Option Bytes × Option DlExc :=
  let expected := lower (strip expected_sha256)
  let _deleted : Option Bytes := none
  match net with
  | .fail e leftover => (leftover, some (.networkExc e))
  | .ok payload =>
    let actual := lower (sha256hex payload)
    if actual ≠ expected then
      (some payload, some (.integrityExc (hashMismatchMsg expected actual)))
    else (some payload, none)

/-! ### Atomic swap (`updater.atomic_swap_runtime`) -/

/-- Installed directory trees are abstracted by an identifier. -/
abbrev DirTree := Nat

/-- The three directory slots `atomic_swap_runtime` touches: the staging
directory, the active runtime directory and the `<active>_prev` backup slot.
`none` means the path does not exist. -/
structure SwapFS where
  staging : Option DirTree
  active : Option DirTree
  backup : Option DirTree
deriving DecidableEq

/-- Model of `updater.atomic_swap_runtime`. `renameStagingFails` injects a failure of
the promoted rename `staging_dir.rename(active_dir)` (the spec's fault
injection point); a rename of an absent staging directory also raises. The
returned Bool is true when the function re-raises the failure. -/
def atomic_swap_runtime (renameStagingFails : Bool) (fs : SwapFS) : SwapFS × Bool :=
  -- if backup_dir.exists(): shutil.rmtree(backup_dir)
  let fs1 : SwapFS := { fs with backup := none }
  -- if active_dir.exists(): active_dir.rename(backup_dir)
  let fs2 : SwapFS :=
    match fs1.active with
    | some t => { fs1 with active := none, backup := some t }
    | none => fs1
  -- try: staging_dir.rename(active_dir)
  if renameStagingFails || fs2.staging.isNone then
    -- except: if backup_dir.exists() and not active_dir.exists():
    --             backup_dir.rename(active_dir)
    --         raise
    let fs3 : SwapFS :=
      match fs2.backup, fs2.active with
      | some t, none => { fs2 with backup := none, active := some t }
      | _, _ => fs2
    (fs3, true)
  else
    let fs3 : SwapFS :=
      match fs2.staging with
      | some t => { fs2 with staging := none, active := some t }
      | none => fs2
    -- if backup_dir.exists(): shutil.rmtree(backup_dir)
    ({ fs3 with backup := none }, false)

/-! ### Runtime installation markers (`runtime.py`) -/

/-- The parts of the installed runtime tree that `runtime.py` inspects:
existence of the venv python and the installed marker, and the content of the
version marker file (`none` means the file is absent or unreadable). -/
structure RuntimeFS where
  venvPy : Bool
  installMarker : Bool
  versionMarker : Option (List Char)
deriving DecidableEq

/-- Model of `runtime.runtime_installed`: the venv python, the installed
marker and the version marker file must all exist. -/
def runtime_installed (rfs : RuntimeFS) : Bool :=
  rfs.venvPy && rfs.installMarker && rfs.versionMarker.isSome

/-- Model of `runtime.installed_runtime_version`: read and strip the version
marker, or `None` when reading raises. -/
def installed_runtime_version (rfs : RuntimeFS) : Option (List Char) :=
  rfs.versionMarker.map strip

/-- Model of `updater._read_local_runtime_version`: `version or "unknown"`. -/
def read_local_runtime_version (rfs : RuntimeFS) : List Char :=
  match installed_runtime_version rfs with
  | some v => if v = [] then lit (r"unknown") else v
  | none => lit (r"unknown")

/-! ### Startup decision flow (`updater.run_startup_update_flow`) -/

/-- Outcome of `fetch_manifest`: a transport failure (`NetworkError`), a
response body that is not valid JSON (`ManifestError`), or a decoded
manifest dict. -/
inductive FetchOutcome
  | network (err : List Char)
  | badJson
  | ok (m : RawManifest)
deriving DecidableEq

/-- Outcome of `install_runtime_from_payload` (extract, provision, atomic
swap): success promotes a new tree to the active slot; failures are split the
way the flow catches them (`IntegrityError` versus any other exception, both
leaving the active slot as it was, since the swap rolls back on failure). -/
inductive InstallOutcome
  | ok (newTree : DirTree)
  | integrityFail (msg : List Char)
  | otherFail (msg : List Char)
deriving DecidableEq

/-- The effect oracles consumed by one run of `run_startup_update_flow`. -/
structure FlowEnv where
  rfs : RuntimeFS
  fetch : FetchOutcome
  download : DownloadOutcome
  sha256hex : Bytes → List Char
  install : InstallOutcome

/-- The filesystem state the flow mutates: the downloaded payload file
(`UPDATE_PAYLOAD_FILE`) and the active runtime directory (`RUNTIME_DIR`). -/
structure FlowFS where
  payloadFile : Option Bytes
  active : Option DirTree
deriving DecidableEq

/-- Model of the `UpdateDecision` dataclass. -/
structure UpdateDecision where
  action : String
  messages : List (List Char)
  error : Option (List Char)
  manifest : Option (List Char × List Char × List Char)
deriving DecidableEq

/-- Exceptions that escape `run_startup_update_flow` to its caller: the
uncaught `ManifestError` from a non-JSON fetch body, and a `ValueError` from
version parsing. -/
inductive FlowExc
  | manifestJsonExc
  | versionValueExc
deriving DecidableEq

/-- Rendering of each `ManifestError` message raised by `validate_manifest`
(the interpolated field name of the first variant is elided). -/
def manifestErrText : ManifestErr → List Char
  | .fieldMissingOrInvalid => lit (r"Manifest field is missing or invalid.")
  | .runtimeVersionInvalid => lit (r"Manifest runtime_version is invalid.")
  | .sha256NotHex64 => lit (r"Manifest payload_sha256 must be a lowercase 64-char hex string.")
  | .urlNotHttps => lit (r"Manifest payload_url must be https.")

/-- The offline message of the flow, naming the local version. -/
def offlineMsg (local_version err : List Char) : List Char :=
  lit (r"Update Check: offline, using installed runtime ") ++ local_version ++
    lit (r" (") ++ err ++ lit (r")")

/-- The manifest-invalid message of the flow. -/
def manifestInvalidMsg (local_version : List Char) (e : ManifestErr) : List Char :=
  lit (r"Update Check: manifest invalid, using installed runtime ") ++ local_version ++
    lit (r" (") ++ manifestErrText e ++ lit (r")")

/-- The runtime-is-current message of the flow. -/
def runtimeCurrentMsg (local_version : List Char) : List Char :=
  lit (r"Update Check: runtime is current (") ++ local_version ++ lit (r")")

/-- The update-available message of the flow. -/
def updateAvailableMsg (local_version remote_version : List Char) : List Char :=
  lit (r"Update Check: update available ") ++ local_version ++ lit (r" -> ") ++ remote_version

/-- The download-unavailable message of the flow. -/
def dlUnavailableMsg (local_version err : List Char) : List Char :=
  lit (r"Update Check: download unavailable, using installed runtime ") ++ local_version ++
    lit (r" (") ++ err ++ lit (r")")

/-- The blocked-on-integrity-failure message of the flow. -/
def blockedMsg (e : List Char) : List Char :=
  lit (r"Update Check: blocked (integrity failure): ") ++ e

/-- The update-failed message of the flow. -/
def updateFailedMsg (local_version e : List Char) : List Char :=
  lit (r"Update Check: update failed, using installed runtime ") ++ local_version ++
    lit (r" (") ++ e ++ lit (r")")

/-- The update-applied message of the flow. -/
def updateAppliedMsg (remote_version : List Char) : List Char :=
  lit (r"Update Check: update applied (") ++ remote_version ++ lit (r")")

/-- Model of `updater.run_startup_update_flow`, following the source branch
for branch. Returns the decision together with the resulting filesystem
state, or the exception escaping to the caller. -/
def run_startup_update_flow (env : FlowEnv) (fs : FlowFS) (perform_update : Bool) :
    Except FlowExc (UpdateDecision × FlowFS) :=
  let local_version := read_local_runtime_version env.rfs
  let local_compare_version := normalize_compare_version local_version
  if ¬ runtime_installed env.rfs then
    .ok ({ action := r"bootstrap_required",
           messages := [lit (r"Update Check: no runtime installed, running setup.")],
           error := none, manifest := none }, fs)
  else
    let msgs0 : List (List Char) :=
      if local_compare_version ≠ local_version then
        [lit (r"Update Check: local runtime version metadata invalid, treating as 0.0.0.")]
      else []
    let msgs1 := msgs0 ++ [lit (r"Update Check: checking manifest...")]
    match env.fetch with
    | .network err =>
      .ok ({ action := r"launch_current",
             messages := msgs1 ++ [offlineMsg local_version err],
             error := none, manifest := none }, fs)
    | .badJson => .error .manifestJsonExc
    | .ok m =>
      match validate_manifest m with
      | .error e =>
        .ok ({ action := r"launch_current",
               messages := msgs1 ++ [manifestInvalidMsg local_version e],
               error := none, manifest := none }, fs)
      | .ok _ =>
        let remote_version := strip (getStr m.runtime_version)
        let payload_url := strip (getStr m.payload_url)
        let payload_sha := lower (strip (getStr m.payload_sha256))
        match is_remote_newer local_compare_version remote_version with
        | none => .error .versionValueExc
        | some newer =>
          if ¬ newer then
            .ok ({ action := r"launch_current",
                   messages := msgs1 ++ [runtimeCurrentMsg local_version],
                   error := none, manifest := none }, fs)
          else
            let msgs2 := msgs1 ++ [updateAvailableMsg local_version remote_version]
            if ¬ perform_update then
              .ok ({ action := r"update_required", messages := msgs2, error := none,
                     manifest := some (remote_version, payload_url, payload_sha) }, fs)
            else
              let msgs3 := msgs2 ++ [lit (r"Update Check: downloading runtime payload...")]
              let dl := download_payload_with_hash env.sha256hex env.download payload_sha
                fs.payloadFile
              let fs1 : FlowFS := { fs with payloadFile := dl.1 }
              match dl.2 with
              | some (.networkExc e) =>
                .ok ({ action := r"launch_current",
                       messages := msgs3 ++ [dlUnavailableMsg local_version e],
                       error := none, manifest := none }, fs1)
              | some (.integrityExc e) =>
                .ok ({ action := r"launch_blocked",
                       messages := msgs3 ++ [blockedMsg e],
                       error := some e, manifest := none }, fs1)
              | none =>
                let msgs4 := msgs3 ++ [lit (r"Update Check: integrity verified")]
                match env.install with
                | .integrityFail e =>
                  .ok ({ action := r"launch_blocked",
                         messages := msgs4 ++ [blockedMsg e],
                         error := some e, manifest := none }, fs1)
                | .otherFail e =>
                  .ok ({ action := r"launch_current",
                         messages := msgs4 ++ [updateFailedMsg local_version e],
                         error := none, manifest := none }, fs1)
                | .ok t =>
                  .ok ({ action := r"updated_and_launch",
                         messages := msgs4 ++ [updateAppliedMsg remote_version],
                         error := none, manifest := none },
                       { payloadFile := none, active := some t })

/-! ### Model update checker (`src/model_update.py`) -/

/-- A JSON value held by a model-update state key: `none` models JSON null,
`some s` a string value. -/
abbrev JVal := Option (List Char)

/-- The model-update state dict restricted to its five known keys, as loaded
by `load_state` (timestamps already parsed: `none` models an absent or
unparseable `last_check_at`, `some t` a parsed UTC timestamp in seconds). -/
structure MState where
  last_check_at : Option Int
  last_remote_sha : Option (List Char)
  last_installed_sha : Option (List Char)
  deferred_sha : Option (List Char)
  last_error : Option (List Char)
deriving DecidableEq

/-- Model of `model_update._is_valid_sha`:
`bool(value and re.fullmatch(r"[0-9a-f]{40}", value))`. -/
def is_valid_sha : Option (List Char) → Bool
  | none => false
  | some v => decide (v ≠ []) && decide (v.length = 40) && v.all isHexLowerChar

/-- Model of `model_update.should_check_now`: an absent or unparseable
last-check timestamp forces a check; otherwise check when the elapsed time
reaches the minimum interval. -/
def should_check_now (state : MState) (now : Int) (min_interval_hours : Int) : Bool :=
  match state.last_check_at with
  | none => true
  | some t => decide (now - t ≥ min_interval_hours * 3600)

/-- Outcome of the `_fetch_remote_model_sha` worker thread: a sha attribute
value was obtained (possibly invalid), or the lookup failed or timed out. -/
inductive RemoteShaOutcome
  | got (sha : List Char)
  | failed (err : List Char)
deriving DecidableEq

/-- Model of `model_update._fetch_remote_model_sha`: returns `(sha, error)`
where the sha is kept only when syntactically valid. -/
def fetch_remote_model_sha : RemoteShaOutcome → Option (List Char) × Option (List Char)
  | .got sha =>
    if is_valid_sha (some sha) then (some sha, none)
    else (none, some (lit (r"remote model SHA is missing or invalid")))
  | .failed e => (none, some e)

/-- The local sha used by `check_for_update`:
`get_local_model_sha(...) or state.get("last_installed_sha")`, then dropped
unless syntactically valid. -/
def localShaComputed (localLookup : Option (List Char)) (state : MState) :
    Option (List Char) :=
  let cand : Option (List Char) :=
    match localLookup with
    | some v => if v ≠ [] then some v else state.last_installed_sha
    | none => state.last_installed_sha
  if is_valid_sha cand then cand else none

/-- Model of the `ModelUpdateCheckResult` dataclass. -/
structure ModelUpdateCheckResult where
  status : String
  local_sha : Option (List Char)
  remote_sha : Option (List Char)
  should_prompt : Bool
  message : List Char
  errorField : Option (List Char)
deriving DecidableEq

/-- The truncated-sha rendering `(sha or "unknown")[:8]`. -/
def shortSha : Option (List Char) → List Char
  | some v => v.take 8
  | none => (lit (r"unknown")).take 8

/-- The update-available message of the model checker. -/
def modelAvailMsg (local_sha : Option (List Char)) (remote : List Char) : List Char :=
  lit (r"Model Check: update available (") ++ shortSha local_sha ++ lit (r" -> ") ++
    remote.take 8 ++ lit (r")")

/-- The effect oracles consumed by one `check_for_update` call: the local
cache inspection result, the remote registry lookup outcome, and the current
time. -/
structure CheckEnv where
  localLookup : Option (List Char)
  remote : RemoteShaOutcome
  now : Int
deriving DecidableEq

/-- Model of `model_update.check_for_update`. Returns the result and the
persisted state after the call (the rate-limited branch performs no remote
query and saves nothing). -/
def check_for_update (env : CheckEnv) (state : MState) (min_interval_hours : Int)
    (force : Bool) : ModelUpdateCheckResult × MState :=
  let local_sha := localShaComputed env.localLookup state
  if ¬ force && ¬ should_check_now state env.now min_interval_hours then
    let known := state.last_remote_sha
    if is_valid_sha known && decide (known ≠ local_sha) then
      ({ status := r"update_available", local_sha := local_sha, remote_sha := known,
         should_prompt := false,
         message := modelAvailMsg local_sha (known.getD []),
         errorField := none }, state)
    else if local_sha.isSome then
      ({ status := r"up_to_date", local_sha := local_sha,
         remote_sha := if is_valid_sha known then known else local_sha,
         should_prompt := false, message := lit (r"Model Check: up to date"),
         errorField := none }, state)
    else
      ({ status := r"skipped", local_sha := none, remote_sha := none,
         should_prompt := false,
         message := lit (r"Model Check: recent check found no update"),
         errorField := none }, state)
  else
    let fr := fetch_remote_model_sha env.remote
    let state1 : MState := { state with last_check_at := some env.now }
    match fr.1 with
    | none =>
      let err : List Char :=
        match fr.2 with
        | some e => if e ≠ [] then e else lit (r"could not fetch remote model metadata")
        | none => lit (r"could not fetch remote model metadata")
      let state2 : MState := { state1 with last_error := some err }
      if local_sha.isSome then
        ({ status := r"offline", local_sha := local_sha, remote_sha := none,
           should_prompt := false,
           message := lit (r"Model Check: offline, using installed model"),
           errorField := some err }, state2)
      else
        ({ status := r"error", local_sha := none, remote_sha := none,
           should_prompt := false,
           message := lit (r"Model Check: could not verify updates (") ++ err ++ lit (r")"),
           errorField := some err }, state2)
    | some remote_sha =>
      let state2 : MState :=
        { state1 with
          last_remote_sha := some remote_sha
          last_error := none }
      if local_sha = some remote_sha then
        let state3 : MState :=
          { state2 with
            last_installed_sha := local_sha
            deferred_sha :=
              if state2.deferred_sha = some remote_sha then none else state2.deferred_sha }
        ({ status := r"up_to_date", local_sha := local_sha, remote_sha := some remote_sha,
           should_prompt := false, message := lit (r"Model Check: up to date"),
           errorField := none }, state3)
      else
        ({ status := r"update_available", local_sha := local_sha,
           remote_sha := some remote_sha, should_prompt := true,
           message := modelAvailMsg local_sha remote_sha,
           errorField := none }, state2)

/-! ### Durable state writes (`model_update.save_state`) -/

/-- The complete merged state written by `save_state`: every one of the five
keys is present (a total record), holding its JSON value. -/
structure MergedState where
  last_check_at : JVal
  last_remote_sha : JVal
  last_installed_sha : JVal
  deferred_sha : JVal
  last_error : JVal
deriving DecidableEq

/-- The caller-supplied state dict for `save_state`: each of the five keys may
be absent (`none`) or present with a value. -/
structure GivenState where
  last_check_at : Option JVal
  last_remote_sha : Option JVal
  last_installed_sha : Option JVal
  deferred_sha : Option JVal
  last_error : Option JVal
deriving DecidableEq

/-- Computation `payload = _state_defaults(); payload.update(state)`: defaults
(all null) overlaid with the given dict. -/
def merge_defaults (s : GivenState) : MergedState :=
  { last_check_at := s.last_check_at.getD none,
    last_remote_sha := s.last_remote_sha.getD none,
    last_installed_sha := s.last_installed_sha.getD none,
    deferred_sha := s.deferred_sha.getD none,
    last_error := s.last_error.getD none }

/-- Content of a file observed at the state path: arbitrary pre-existing
content, or a completely serialized merged state. -/
inductive FileContent
  | raw (v : Nat)
  | jsonState (r : MergedState)
deriving DecidableEq

/-- Content of the temporary file during `save_state`: just created by
`mkstemp`, mid-`json.dump`, or completely written and flushed. -/
inductive TempContent
  | emptyFile
  | inProgress
  | completeContent (r : MergedState)
deriving DecidableEq

/-- The two files `save_state` touches: the state file and its temporary. -/
structure SaveFS where
  stateFile : Option FileContent
  tempFile : Option TempContent
deriving DecidableEq

/-- Filesystem state after the first `n` steps of `save_state`
(`n` past the end yields the final state): step 1 `mkstemp`, step 2 a partial
`json.dump`, step 3 the completed and flushed dump, step 4 the atomic
`Path(temp_path).replace(state_path)` followed by the `finally` cleanup of a
leftover temporary (a no-op after the rename). A run interrupted before the
rename is the prefix ending at the corresponding `n`. -/
def save_state_fs_at (s : GivenState) (old : Option FileContent) (n : Nat) : SaveFS :=
  match n with
  | 0 => { stateFile := old, tempFile := none }
  | 1 => { stateFile := old, tempFile := some .emptyFile }
  | 2 => { stateFile := old, tempFile := some .inProgress }
  | 3 => { stateFile := old, tempFile := some (.completeContent (merge_defaults s)) }
  | _ => { stateFile := some (.jsonState (merge_defaults s)), tempFile := none }

/-- Helper for the spec predicate: the field is missing, not a string, or the
empty string. -/
def jFieldMissingOrEmpty : JField → Bool
  | .str s => decide (s = [])
  | _ => true

/-- Exactly 64 characters of the class `[0-9a-f]`. -/
def isHex64 (s : List Char) : Bool := decide (s.length = 64) && s.all isHexLowerChar

/-! ### Concrete fixtures used by witness instantiations -/

/-- A valid manifest fixture: version 0.1.9, https url, 64-hex digest. -/
def wManifest : RawManifest :=
  { runtime_version := .str (lit (r"0.1.9"))
    payload_url := .str (lit (r"https://example.com/runtime_payload.tar.gz"))
    payload_sha256 := .str (lit (r"aaaaaaaaaaaaaaaaaaaaaaaaaaaaaaaaaaaaaaaaaaaaaaaaaaaaaaaaaaaaaaaa")) }

/-- An installed runtime fixture at version 0.1.5. -/
def wRfs : RuntimeFS :=
  { venvPy := true, installMarker := true, versionMarker := some (lit (r"0.1.5")) }

/-- The flow filesystem fixture: no payload file, an active tree. -/
def wFs : FlowFS := { payloadFile := none, active := some 5 }

/-- A flow environment fixture whose download hashes to the wrong digest. -/
def wEnvMismatch : FlowEnv :=
  { rfs := wRfs
    fetch := .ok wManifest
    download := .ok 7
    sha256hex := fun _ => lit (r"bbbbbbbbbbbbbbbbbbbbbbbbbbbbbbbbbbbbbbbbbbbbbbbbbbbbbbbbbbbbbbbb")
    install := .ok 1 }

/-- A flow environment fixture whose manifest fetch fails with a timeout. -/
def wEnvOffline : FlowEnv :=
  { rfs := wRfs
    fetch := .network (lit (r"timed out"))
    download := .ok 7
    sha256hex := fun _ => lit (r"aaaaaaaaaaaaaaaaaaaaaaaaaaaaaaaaaaaaaaaaaaaaaaaaaaaaaaaaaaaaaaaa")
    install := .ok 1 }

/-- A model-update state fixture: checked recently, cached remote revision
differing from the installed one. -/
def wState : MState :=
  { last_check_at := some 1000
    last_remote_sha := some (lit (r"cccccccccccccccccccccccccccccccccccccccc"))
    last_installed_sha := some (lit (r"dddddddddddddddddddddddddddddddddddddddd"))
    deferred_sha := none
    last_error := none }

/-- A model-update check environment fixture inside the rate-limit window. -/
def wEnvCheck : CheckEnv :=
  { localLookup := some (lit (r"dddddddddddddddddddddddddddddddddddddddd")), remote := .failed (lit (r"unreachable")), now := 2000 }

/-! ### Spec-side manifest rejection predicate (for the refinement claim) -/

/-- Rejection condition written from the specification words: a required field
is missing or not a non-empty string, or `runtime_version` does not parse as a
dotted numeric version, or `payload_sha256` (after stripping surrounding
whitespace and lowercasing) is not exactly 64 hex characters, or `payload_url`
does not begin with `https://`. -/
def manifest_rejected_spec (m : RawManifest) : Bool :=
  jFieldMissingOrEmpty m.runtime_version ||
  jFieldMissingOrEmpty m.payload_url ||
  jFieldMissingOrEmpty m.payload_sha256 ||
  !(versionFormatOk (getStr m.runtime_version)) ||
  !(isHex64 (lower (strip (getStr m.payload_sha256)))) ||
  !((lit (r"https://")).isPrefixOf (getStr m.payload_url))

/-! ### Lemmas about the version model -/

/-- Tuple comparison treating a missing component as zero. -/
def cmpZ : List Nat → List Nat → Ordering
  | [], [] => .eq
  | [], b :: bs => if 0 < b then .lt else cmpZ [] bs
  | a :: as, [] => if 0 < a then .gt else cmpZ as []
  | a :: as, b :: bs => if b < a then .gt else if a < b then .lt else cmpZ as bs

theorem splitDot_ne_nil (s : List Char) : splitDot s ≠ [] := by
  cases s with
  | nil => simp [splitDot]
  | cons c rest =>
    cases hl : splitDot rest with
    | nil => simp [splitDot, hl]
    | cons p ps =>
      simp only [splitDot, hl]
      split <;> simp

theorem splitDot_cons_eq (c : Char) (l p : List Char) (ps : List (List Char))
    (h : splitDot l = p :: ps) :
    splitDot (c :: l) = if c = '.' then [] :: p :: ps else (c :: p) :: ps := by
  simp [splitDot, h]

theorem splitDot_append_dot_zero (s : List Char) :
    splitDot (s ++ ['.', '0']) = splitDot s ++ [['0']] := by
  induction s with
  | nil => rfl
  | cons c rest ih =>
    cases hsd : splitDot rest with
    | nil => exact absurd hsd (splitDot_ne_nil rest)
    | cons p ps =>
      have h1 : splitDot (rest ++ ['.', '0']) = p :: (ps ++ [['0']]) := by
        rw [ih, hsd]; simp
      rw [List.cons_append, splitDot_cons_eq c _ _ _ h1, splitDot_cons_eq c _ _ _ hsd]
      split <;> simp

theorem cmpZ_zeros_nil (k : Nat) : cmpZ (List.replicate k 0) [] = .eq := by
  induction k with
  | zero => simp [cmpZ]
  | succ j ih => simpa [cmpZ, List.replicate] using ih

theorem cmpZ_zeros_left (y : List Nat) (k : Nat) :
    cmpZ (List.replicate k 0) y = cmpZ [] y := by
  induction y generalizing k with
  | nil => simpa [cmpZ] using cmpZ_zeros_nil k
  | cons b bs ih =>
    cases k with
    | zero => simp [List.replicate]
    | succ j => simp [List.replicate, cmpZ, ih]

theorem cmpZ_nil_zeros (k : Nat) : cmpZ [] (List.replicate k 0) = .eq := by
  induction k with
  | zero => simp [cmpZ]
  | succ j ih => simpa [cmpZ, List.replicate] using ih

theorem cmpZ_zeros_right (y : List Nat) (k : Nat) :
    cmpZ y (List.replicate k 0) = cmpZ y [] := by
  induction y generalizing k with
  | nil => simpa [cmpZ] using cmpZ_nil_zeros k
  | cons b bs ih =>
    cases k with
    | zero => simp [List.replicate]
    | succ j => simp [List.replicate, cmpZ, ih]

theorem cmpZ_append_zeros_left (x y : List Nat) (k : Nat) :
    cmpZ (x ++ List.replicate k 0) y = cmpZ x y := by
  induction x generalizing y with
  | nil => simpa using cmpZ_zeros_left y k
  | cons a as ih =>
    cases y with
    | nil => simp [cmpZ, ih]
    | cons b bs => simp [cmpZ, ih]

theorem cmpZ_append_zeros_right (x y : List Nat) (k : Nat) :
    cmpZ x (y ++ List.replicate k 0) = cmpZ x y := by
  induction y generalizing x with
  | nil => simpa using cmpZ_zeros_right x k
  | cons b bs ih =>
    cases x with
    | nil => simp [cmpZ, ih]
    | cons a as => simp [cmpZ, ih]

theorem tupleGt_eq_cmpZ (x y : List Nat) (h : x.length = y.length) :
    tupleGt x y = (cmpZ x y == Ordering.gt) := by
  induction x generalizing y with
  | nil =>
    cases y with
    | nil =>
      simp only [tupleGt, cmpZ]
      decide
    | cons b bs => simp at h
  | cons a as ih =>
    cases y with
    | nil => simp at h
    | cons b bs =>
      simp only [List.length_cons, Nat.succ.injEq] at h
      simp only [tupleGt, cmpZ]
      rcases Nat.lt_trichotomy a b with hab | hab | hab
      · have h1 : ¬ b < a := Nat.lt_asymm hab
        have h2 : (a == b) = false := by
          simp [Nat.ne_of_lt hab]
        simp only [hab, h1, h2]
        simp [hab, h1, h2]
        decide
      · subst hab
        simp [Nat.lt_irrefl, ih bs h]
      · have h1 : ¬ a < b := Nat.lt_asymm hab
        have h2 : b < a := hab
        simp [h1, h2]
        decide

theorem zpad_length (l : List Nat) (n : Nat) (h : l.length ≤ n) :
    (zpad l n).length = n := by
  simp [zpad]
  omega

theorem is_remote_newer_eq_cmpZ (a b : List Char)
    (ha : versionFormatOk a = true) (hb : versionFormatOk b = true) :
    is_remote_newer a b =
      some (cmpZ ((splitDot b).map digitsToNat) ((splitDot a).map digitsToNat)
        == Ordering.gt) := by
  have hpa : parse_version a = some ((splitDot a).map digitsToNat) := by
    simp [parse_version, ha]
  have hpb : parse_version b = some ((splitDot b).map digitsToNat) := by
    simp [parse_version, hb]
  simp only [is_remote_newer, hpa, hpb]
  have h1 :
      (zpad ((splitDot b).map digitsToNat)
        (max ((splitDot a).map digitsToNat).length ((splitDot b).map digitsToNat).length)).length =
      max ((splitDot a).map digitsToNat).length ((splitDot b).map digitsToNat).length :=
    zpad_length _ _ (Nat.le_max_right _ _)
  have h2 :
      (zpad ((splitDot a).map digitsToNat)
        (max ((splitDot a).map digitsToNat).length ((splitDot b).map digitsToNat).length)).length =
      max ((splitDot a).map digitsToNat).length ((splitDot b).map digitsToNat).length :=
    zpad_length _ _ (Nat.le_max_left _ _)
  rw [tupleGt_eq_cmpZ _ _ (h1.trans h2.symm)]
  simp only [zpad, cmpZ_append_zeros_left, cmpZ_append_zeros_right]

theorem mem_splitDot (s : List Char) (c : Char) (hc : c ∈ s) :
    c = '.' ∨ ∃ p, p ∈ splitDot s ∧ c ∈ p := by
  induction s with
  | nil => cases hc
  | cons c0 rest ih =>
    cases hl : splitDot rest with
    | nil => exact absurd hl (splitDot_ne_nil rest)
    | cons p ps =>
      have hsp := splitDot_cons_eq c0 rest p ps hl
      by_cases hd : c0 = '.'
      · rw [hsp, if_pos hd]
        rcases List.mem_cons.mp hc with rfl | hmem
        · exact Or.inl hd
        · rcases ih hmem with hdot | ⟨q, hq, hcq⟩
          · exact Or.inl hdot
          · right
            refine ⟨q, ?_, hcq⟩
            rw [hl] at hq
            exact List.mem_cons_of_mem _ hq
      · rw [hsp, if_neg hd]
        rcases List.mem_cons.mp hc with rfl | hmem
        · right
          exact ⟨c :: p, List.mem_cons_self _ _, List.mem_cons_self _ _⟩
        · rcases ih hmem with hdot | ⟨q, hq, hcq⟩
          · exact Or.inl hdot
          · rw [hl] at hq
            rcases List.mem_cons.mp hq with rfl | hq2
            · right
              exact ⟨c0 :: q, List.mem_cons_self _ _, List.mem_cons_of_mem _ hcq⟩
            · right
              exact ⟨q, List.mem_cons_of_mem _ hq2, hcq⟩

theorem versionFormatOk_chars (s : List Char) (hs : versionFormatOk s = true)
    (c : Char) (hc : c ∈ s) : c = '.' ∨ isDigitChar c = true := by
  rcases mem_splitDot s c hc with h | ⟨p, hp, hcp⟩
  · exact Or.inl h
  · right
    simp only [versionFormatOk, Bool.and_eq_true, decide_eq_true_eq,
      List.all_eq_true] at hs
    have h2 := hs.2 p hp
    simp only [Bool.and_eq_true, decide_eq_true_eq, List.all_eq_true] at h2
    exact h2.2 c hcp

theorem pySpace_false_of_digit (c : Char) (h : isDigitChar c = true) :
    pySpace c = false := by
  simp only [isDigitChar, Bool.and_eq_true, decide_eq_true_eq] at h
  simp only [pySpace, Bool.or_eq_false_iff, decide_eq_false_iff_not]
  omega

theorem versionFormatOk_no_space (s : List Char) (hs : versionFormatOk s = true) :
    ∀ c ∈ s, pySpace c = false := by
  intro c hc
  rcases versionFormatOk_chars s hs c hc with rfl | h
  · decide
  · exact pySpace_false_of_digit c h

theorem dropWhile_eq_self_of_all_false {α : Type} (p : α → Bool) (l : List α)
    (h : ∀ c ∈ l, p c = false) : l.dropWhile p = l := by
  cases l with
  | nil => rfl
  | cons a t => simp [List.dropWhile_cons, h a (List.mem_cons_self a t)]

theorem strip_eq_self_of_no_space (s : List Char) (h : ∀ c ∈ s, pySpace c = false) :
    strip s = s := by
  unfold strip
  rw [dropWhile_eq_self_of_all_false pySpace s h,
    dropWhile_eq_self_of_all_false pySpace s.reverse
      (fun c hc => h c (List.mem_reverse.mp hc)),
    List.reverse_reverse]

theorem versionFormatOk_strip_eq (s : List Char) (hs : versionFormatOk s = true) :
    strip s = s :=
  strip_eq_self_of_no_space s (versionFormatOk_no_space s hs)

theorem versionFormatOk_ne_nil (s : List Char) (hs : versionFormatOk s = true) :
    s ≠ [] := by
  simp only [versionFormatOk, Bool.and_eq_true, decide_eq_true_eq] at hs
  exact hs.1

theorem dropWhile_eq_nil_all {α : Type} (p : α → Bool) (l : List α)
    (h : l.dropWhile p = []) : ∀ c ∈ l, p c = true := by
  induction l with
  | nil => intro c hc; cases hc
  | cons a t ih =>
    rw [List.dropWhile_cons] at h
    by_cases hp : p a
    · intro c hc
      rcases List.mem_cons.mp hc with rfl | hc2
      · exact hp
      · exact ih (by simpa [hp] using h) c hc2
    · simp [hp] at h

theorem all_space_of_strip_nil (s : List Char) (h : strip s = []) :
    ∀ c ∈ s, pySpace c = true := by
  unfold strip at h
  rw [List.reverse_eq_nil_iff] at h
  have h2 := dropWhile_eq_nil_all pySpace _ h
  have h3 : ∀ c ∈ s.dropWhile pySpace, pySpace c = true := by
    intro c hc
    exact h2 c (List.mem_reverse.mpr hc)
  intro c hc
  rw [← List.takeWhile_append_dropWhile (p := pySpace) (l := s)] at hc
  rcases List.mem_append.mp hc with h4 | h4
  · exact List.mem_takeWhile_imp h4
  · exact h3 c h4

theorem versionFormatOk_false_of_strip_nil (s : List Char) (h : strip s = []) :
    versionFormatOk s = false := by
  cases hv : versionFormatOk s
  · rfl
  · exfalso
    have hss := versionFormatOk_strip_eq s hv
    rw [hss] at h
    exact versionFormatOk_ne_nil s hv h

theorem https_isPrefixOf_false_of_strip_nil (s : List Char) (h : strip s = []) :
    (lit (r"https://")).isPrefixOf s = false := by
  cases s with
  | nil => decide
  | cons c t =>
    have hc : pySpace c = true := all_space_of_strip_nil _ h c (List.mem_cons_self c t)
    cases hx : (lit (r"https://")).isPrefixOf (c :: t)
    · rfl
    · exfalso
      have hlit : lit (r"https://") = 'h' :: lit (r"ttps://") := rfl
      rw [hlit] at hx
      simp only [List.isPrefixOf, Bool.and_eq_true, beq_iff_eq] at hx
      obtain ⟨h1, -⟩ := hx
      subst h1
      exact absurd hc (by decide)

theorem pySpace_false_of_hex (c : Char) (h : isHexLowerChar c = true) :
    pySpace c = false := by
  simp only [isHexLowerChar, isDigitChar, Bool.or_eq_true, Bool.and_eq_true,
    decide_eq_true_eq] at h
  simp only [pySpace, Bool.or_eq_false_iff, decide_eq_false_iff_not]
  omega

theorem lowerChar_eq_self_of_hex (c : Char) (h : isHexLowerChar c = true) :
    lowerChar c = c := by
  simp only [isHexLowerChar, isDigitChar, Bool.or_eq_true, Bool.and_eq_true,
    decide_eq_true_eq] at h
  unfold lowerChar
  rw [if_neg]
  omega

theorem map_eq_self_of_fix {α : Type} (f : α → α) (l : List α)
    (h : ∀ a ∈ l, f a = a) : l.map f = l := by
  induction l with
  | nil => rfl
  | cons a t ih =>
    simp [h a (List.mem_cons_self a t), ih (fun b hb => h b (List.mem_cons_of_mem a hb))]

theorem strip_eq_self_of_hex (s : List Char) (h : s.all isHexLowerChar = true) :
    strip s = s := by
  apply strip_eq_self_of_no_space
  intro c hc
  exact pySpace_false_of_hex c ((List.all_eq_true.mp h) c hc)

theorem lower_eq_self_of_hex (s : List Char) (h : s.all isHexLowerChar = true) :
    lower s = s := by
  unfold lower
  exact map_eq_self_of_fix lowerChar s
    (fun c hc => lowerChar_eq_self_of_hex c ((List.all_eq_true.mp h) c hc))

theorem versionFormatOk_of_probe_some (v : List Char) (b : Bool)
    (hm : is_remote_newer (lit (r"0.0.0")) v = some b) : versionFormatOk v = true := by
  cases hv : versionFormatOk v
  · have hp : parse_version v = none := by simp [parse_version, hv]
    simp [is_remote_newer, hp] at hm
  · rfl

theorem is_remote_newer_zero_probe (v : List Char) :
    (is_remote_newer (lit (r"0.0.0")) v).isNone = !(versionFormatOk v) := by
  have h0 : parse_version (lit (r"0.0.0")) = some [0, 0, 0] := by decide
  cases hv : versionFormatOk v
  · have hp : parse_version v = none := by simp [parse_version, hv]
    simp [is_remote_newer, h0, hp]
  · have hp : parse_version v = some ((splitDot v).map digitsToNat) := by
      simp [parse_version, hv]
    simp [is_remote_newer, h0, hp]

theorem normalize_compare_version_ok (v : List Char) :
    versionFormatOk (normalize_compare_version v) = true := by
  unfold normalize_compare_version
  split
  · decide
  · cases hm : is_remote_newer (lit (r"0.0.0")) v with
    | none =>
      show versionFormatOk (lit (r"0.0.0")) = true
      decide
    | some b => exact versionFormatOk_of_probe_some v b hm

theorem normalize_compare_version_bad (v : List Char) (hv : versionFormatOk v = false) :
    normalize_compare_version v = lit (r"0.0.0") := by
  unfold normalize_compare_version
  split
  · rfl
  · have hp : parse_version v = none := by simp [parse_version, hv]
    have hm : is_remote_newer (lit (r"0.0.0")) v = none := by
      simp [is_remote_newer, hp]
    rw [hm]

theorem versionFormatOk_append_dot_zero (a : List Char) (ha : versionFormatOk a = true) :
    versionFormatOk (a ++ ['.', '0']) = true := by
  simp only [versionFormatOk, Bool.and_eq_true, decide_eq_true_eq,
    List.all_eq_true] at ha ⊢
  refine ⟨by simp, ?_⟩
  rw [splitDot_append_dot_zero]
  intro p hp
  rcases List.mem_append.mp hp with h | h
  · exact ha.2 p h
  · simp only [List.mem_singleton] at h
    subst h
    decide

theorem parse_version_append_dot_zero (a : List Char) (ha : versionFormatOk a = true) :
    parse_version (a ++ ['.', '0']) =
      some ((splitDot a).map digitsToNat ++ [0]) := by
  rw [parse_version, if_pos (versionFormatOk_append_dot_zero a ha), splitDot_append_dot_zero]
  have hz : digitsToNat ['0'] = 0 := by decide
  simp [hz]

/-! ### Lemmas about manifest validation -/

theorem fieldOk_imp_not_missing (j : JField) (h : fieldOkNonBlank j = true) :
    jFieldMissingOrEmpty j = false := by
  cases j with
  | absent => simp [fieldOkNonBlank] at h
  | nonString => simp [fieldOkNonBlank] at h
  | str s =>
    simp only [fieldOkNonBlank, decide_eq_true_eq] at h
    simp only [jFieldMissingOrEmpty, decide_eq_false_iff_not]
    intro hnil
    apply h
    rw [hnil]
    rfl

theorem not_missing_get (j : JField) (h : jFieldMissingOrEmpty j = false) :
    j = .str (getStr j) ∧ getStr j ≠ [] := by
  cases j with
  | absent => simp [jFieldMissingOrEmpty] at h
  | nonString => simp [jFieldMissingOrEmpty] at h
  | str s =>
    simp only [jFieldMissingOrEmpty, decide_eq_false_iff_not] at h
    exact ⟨rfl, h⟩

theorem validate_manifest_ok_conditions (m : RawManifest)
    (h : validate_manifest m = .ok ()) :
    fieldOkNonBlank m.runtime_version = true ∧
    fieldOkNonBlank m.payload_url = true ∧
    fieldOkNonBlank m.payload_sha256 = true ∧
    versionFormatOk (getStr m.runtime_version) = true ∧
    isHex64 (lower (strip (getStr m.payload_sha256))) = true ∧
    (lit (r"https://")).isPrefixOf (getStr m.payload_url) = true := by
  unfold validate_manifest at h
  split at h
  · exact Except.noConfusion h
  · rename_i h1
    split at h
    · exact Except.noConfusion h
    · rename_i h2
      split at h
      · exact Except.noConfusion h
      · rename_i h3
        split at h
        · exact Except.noConfusion h
        · rename_i h4
          split at h
          · exact Except.noConfusion h
          · rename_i h5
            split at h
            · exact Except.noConfusion h
            · rename_i h6
              rw [not_not] at h1 h2 h3 h5 h6
              have c4 : versionFormatOk (getStr m.runtime_version) = true := by
                rw [is_remote_newer_zero_probe] at h4
                cases hx : versionFormatOk (getStr m.runtime_version)
                · exact absurd (by rw [hx]; rfl) h4
                · rfl
              have c5 : isHex64 (lower (strip (getStr m.payload_sha256))) = true := by
                simp [isHex64, h5.1, h5.2]
              exact ⟨by simpa using h1, by simpa using h2, by simpa using h3, c4, c5,
                by simpa using h6⟩

theorem validate_manifest_ok_iff (m : RawManifest) :
    validate_manifest m = .ok () ↔ manifest_rejected_spec m = false := by
  constructor
  · intro h
    obtain ⟨c1, c2, c3, c4, c5, c6⟩ := validate_manifest_ok_conditions m h
    simp only [manifest_rejected_spec, Bool.or_eq_false_iff]
    exact ⟨⟨⟨⟨⟨fieldOk_imp_not_missing _ c1, fieldOk_imp_not_missing _ c2⟩,
      fieldOk_imp_not_missing _ c3⟩, by simp [c4]⟩, by simp [c5]⟩, by simp [c6]⟩
  · intro h
    simp only [manifest_rejected_spec, Bool.or_eq_false_iff] at h
    obtain ⟨⟨⟨⟨⟨h1, h2⟩, h3⟩, h4⟩, h5⟩, h6⟩ := h
    have hv : versionFormatOk (getStr m.runtime_version) = true := by
      simpa using h4
    have hhex : isHex64 (lower (strip (getStr m.payload_sha256))) = true := by
      simpa using h5
    have hpre : (lit (r"https://")).isPrefixOf (getStr m.payload_url) = true := by
      simpa using h6
    obtain ⟨hj1, -⟩ := not_missing_get _ h1
    obtain ⟨hj2, -⟩ := not_missing_get _ h2
    obtain ⟨hj3, -⟩ := not_missing_get _ h3
    have hs1 : strip (getStr m.runtime_version) ≠ [] := by
      rw [versionFormatOk_strip_eq _ hv]
      exact versionFormatOk_ne_nil _ hv
    have hs2 : strip (getStr m.payload_url) ≠ [] := by
      intro hnil
      rw [https_isPrefixOf_false_of_strip_nil _ hnil] at hpre
      exact Bool.noConfusion hpre
    have hs3 : strip (getStr m.payload_sha256) ≠ [] := by
      intro hnil
      rw [hnil] at hhex
      exact absurd hhex (by decide)
    have hc1 : fieldOkNonBlank m.runtime_version = true := by
      rw [hj1]
      simp only [fieldOkNonBlank, decide_eq_true_eq]
      exact hs1
    have hc2 : fieldOkNonBlank m.payload_url = true := by
      rw [hj2]
      simp only [fieldOkNonBlank, decide_eq_true_eq]
      exact hs2
    have hc3 : fieldOkNonBlank m.payload_sha256 = true := by
      rw [hj3]
      simp only [fieldOkNonBlank, decide_eq_true_eq]
      exact hs3
    have hprobe : (is_remote_newer (lit (r"0.0.0")) (getStr m.runtime_version)).isNone = false := by
      rw [is_remote_newer_zero_probe, hv]
      rfl
    have hx := hhex
    simp only [isHex64, Bool.and_eq_true, decide_eq_true_eq] at hx
    unfold validate_manifest
    simp [hc1, hc2, hc3, hprobe, hx.1, hx.2, hpre]

/-! ### Lemmas about the startup flow -/

theorem flow_never_version_value_exc (env : FlowEnv) (fs : FlowFS) (perform_update : Bool) :
    run_startup_update_flow env fs perform_update ≠ Except.error FlowExc.versionValueExc := by
  unfold run_startup_update_flow
  by_cases hI : runtime_installed env.rfs = true
  · rw [if_neg (not_not_intro hI)]
    cases hf : env.fetch with
    | network err => simp
    | badJson => simp
    | ok m =>
      cases hvm : validate_manifest m with
      | error e => simp [hvm]
      | ok u =>
        cases u
        simp only [hvm]
        obtain ⟨bb, hbb⟩ : ∃ bb,
            is_remote_newer (normalize_compare_version (read_local_runtime_version env.rfs))
              (strip (getStr m.runtime_version)) = some bb := by
          have h1 := normalize_compare_version_ok (read_local_runtime_version env.rfs)
          have h2 := (validate_manifest_ok_conditions m hvm).2.2.2.1
          have h3 : strip (getStr m.runtime_version) = getStr m.runtime_version :=
            versionFormatOk_strip_eq _ h2
          rw [h3, is_remote_newer_eq_cmpZ _ _ h1 h2]
          exact ⟨_, rfl⟩
        simp only [hbb]
        repeat' split
        all_goals simp
  · rw [if_pos hI]
    simp

/-! ### Claim theorems -/

/-- C7 counterexample: is_remote_newer applied to the malformed local version
string abc raises (models as none) instead of treating it as 0.0.0, which
would yield some true against the remote 1.0. -/
theorem is_remote_newer_malformed_raises :
    is_remote_newer (lit (r"abc")) (lit (r"1.0")) = none ∧
    is_remote_newer (lit (r"0.0.0")) (lit (r"1.0")) = some true := by
  decide

/-- C7 (amended): is_remote_newer itself raises ValueError on a malformed
version string; it is the flow wrapper _normalize_compare_version that
substitutes 0.0.0 for a malformed or missing local version, so no
version-parsing exception ever reaches the caller of the startup flow. -/
theorem normalize_substitutes_and_flow_never_raises (v : List Char)
    (hv : versionFormatOk v = false) (env : FlowEnv) (fs : FlowFS)
    (perform_update : Bool) :
    normalize_compare_version v = lit (r"0.0.0") ∧
    run_startup_update_flow env fs perform_update ≠ Except.error FlowExc.versionValueExc :=
  ⟨normalize_compare_version_bad v hv, flow_never_version_value_exc env fs perform_update⟩

/-- Witness for the amended C7 theorem at the malformed version abc and a
concrete environment. -/
theorem normalize_substitutes_and_flow_never_raises_witness :
    versionFormatOk (lit (r"abc")) = false ∧
    (normalize_compare_version (lit (r"abc")) = lit (r"0.0.0") ∧
      run_startup_update_flow
        { rfs := { venvPy := true, installMarker := true,
                   versionMarker := some (lit (r"abc")) },
          fetch := .network (lit (r"timeout")), download := .ok 0,
          sha256hex := fun _ => [], install := .ok 1 }
        { payloadFile := none, active := some 0 } true ≠
        Except.error FlowExc.versionValueExc) :=
  ⟨by decide, normalize_substitutes_and_flow_never_raises (lit (r"abc")) (by decide) _ _ _⟩

/-- C8: for valid dotted-integer version strings, appending a trailing .0
component to either argument of is_remote_newer never changes the comparison
result. -/
theorem is_remote_newer_trailing_zero_invariant (a b : List Char)
    (ha : versionFormatOk a = true) (hb : versionFormatOk b = true) :
    is_remote_newer (a ++ lit (r".0")) b = is_remote_newer a b ∧
    is_remote_newer a (b ++ lit (r".0")) = is_remote_newer a b := by
  have hdot : lit (r".0") = ['.', '0'] := rfl
  have ha2 : versionFormatOk (a ++ ['.', '0']) = true := versionFormatOk_append_dot_zero a ha
  have hb2 : versionFormatOk (b ++ ['.', '0']) = true := versionFormatOk_append_dot_zero b hb
  have hz : List.map digitsToNat [['0']] = [0] := by decide
  have hrep : ([0] : List Nat) = List.replicate 1 0 := rfl
  constructor
  · rw [hdot, is_remote_newer_eq_cmpZ _ _ ha2 hb, is_remote_newer_eq_cmpZ _ _ ha hb,
      splitDot_append_dot_zero, List.map_append, hz, hrep, cmpZ_append_zeros_right]
  · rw [hdot, is_remote_newer_eq_cmpZ _ _ ha hb2, is_remote_newer_eq_cmpZ _ _ ha hb,
      splitDot_append_dot_zero, List.map_append, hz, hrep, cmpZ_append_zeros_left]

/-- Witness for the C8 theorem at the versions 0.1.9 and 0.2. -/
theorem is_remote_newer_trailing_zero_invariant_witness :
    versionFormatOk (lit (r"0.1.9")) = true ∧ versionFormatOk (lit (r"0.2")) = true ∧
    (is_remote_newer (lit (r"0.1.9") ++ lit (r".0")) (lit (r"0.2")) =
        is_remote_newer (lit (r"0.1.9")) (lit (r"0.2")) ∧
      is_remote_newer (lit (r"0.1.9")) (lit (r"0.2") ++ lit (r".0")) =
        is_remote_newer (lit (r"0.1.9")) (lit (r"0.2"))) :=
  ⟨by decide, by decide,
    is_remote_newer_trailing_zero_invariant (lit (r"0.1.9")) (lit (r"0.2"))
      (by decide) (by decide)⟩

/-- C2: atomic_swap_runtime with a pre-existing active installation: if the
staging→active rename fails the previous installation is restored to the
active slot before the error propagates and the active path is never left
absent; on success the former staging tree is at the active path and the
backup slot has been deleted. -/
theorem atomic_swap_rollback_and_success (fs : SwapFS) (t : DirTree)
    (hActive : fs.active = some t) :
    ((atomic_swap_runtime true fs).1.active = some t ∧
      (atomic_swap_runtime true fs).2 = true) ∧
    (∀ s, fs.staging = some s →
      atomic_swap_runtime false fs =
        ({ staging := none, active := some s, backup := none }, false)) ∧
    (∀ failInjected, ((atomic_swap_runtime failInjected fs).1.active).isSome = true) := by
  refine ⟨?_, ?_, ?_⟩
  · simp [atomic_swap_runtime, hActive]
  · intro s hs
    simp [atomic_swap_runtime, hActive, hs]
  · intro failInjected
    cases failInjected
    · cases hst : fs.staging <;> simp [atomic_swap_runtime, hActive, hst]
    · simp [atomic_swap_runtime, hActive]

/-- Witness for the C2 theorem at a concrete filesystem with distinct staging,
active and stale backup trees. -/
theorem atomic_swap_rollback_and_success_witness :
    ({ staging := some 2, active := some 1, backup := some 0 } : SwapFS).active = some 1 ∧
    (((atomic_swap_runtime true { staging := some 2, active := some 1, backup := some 0 }).1.active =
        some 1 ∧
      (atomic_swap_runtime true { staging := some 2, active := some 1, backup := some 0 }).2 =
        true) ∧
    (∀ s, ({ staging := some 2, active := some 1, backup := some 0 } : SwapFS).staging = some s →
      atomic_swap_runtime false { staging := some 2, active := some 1, backup := some 0 } =
        ({ staging := none, active := some s, backup := none }, false)) ∧
    (∀ failInjected,
      ((atomic_swap_runtime failInjected
        { staging := some 2, active := some 1, backup := some 0 }).1.active).isSome = true)) :=
  ⟨rfl, atomic_swap_rollback_and_success _ 1 rfl⟩

/-- C3 counterexample: a completed download whose computed digest differs from
the expected digest raises IntegrityError but leaves the downloaded tampered
bytes at the destination path. -/
theorem download_mismatch_leaves_file :
    download_payload_with_hash (fun _ => lit (r"aa")) (.ok 7) (lit (r"bb")) none =
      (some 7, some (.integrityExc (hashMismatchMsg (lit (r"bb")) (lit (r"aa"))))) := by
  decide

/-- C3 (amended): on a digest mismatch download_payload_with_hash raises
IntegrityError with the tampered bytes still at the destination; any leftover
destination file from a prior attempt is deleted before the download starts,
so the outcome never depends on the prior destination content. -/
theorem download_integrity_error_semantics (sha256hex : Bytes → List Char)
    (payload : Bytes) (expected_sha256 : List Char) (dest0 : Option Bytes)
    (hMism : lower (sha256hex payload) ≠ lower (strip expected_sha256)) :
    download_payload_with_hash sha256hex (.ok payload) expected_sha256 dest0 =
      (some payload,
        some (.integrityExc (hashMismatchMsg (lower (strip expected_sha256))
          (lower (sha256hex payload))))) ∧
    (∀ net d0 d1, download_payload_with_hash sha256hex net expected_sha256 d0 =
      download_payload_with_hash sha256hex net expected_sha256 d1) := by
  constructor
  · simp [download_payload_with_hash, hMism]
  · intro net d0 d1
    rfl

/-- Witness for the amended C3 theorem at a concrete mismatching download on
top of a leftover destination file. -/
theorem download_integrity_error_semantics_witness :
    lower ((fun _ : Bytes => lit (r"aa")) 7) ≠ lower (strip (lit (r"bb"))) ∧
    (download_payload_with_hash (fun _ => lit (r"aa")) (.ok 7) (lit (r"bb")) (some 3) =
        (some 7,
          some (.integrityExc (hashMismatchMsg (lower (strip (lit (r"bb"))))
            (lower ((fun _ : Bytes => lit (r"aa")) 7))))) ∧
      (∀ net d0 d1, download_payload_with_hash (fun _ => lit (r"aa")) net (lit (r"bb")) d0 =
        download_payload_with_hash (fun _ => lit (r"aa")) net (lit (r"bb")) d1)) :=
  ⟨by decide, download_integrity_error_semantics (fun _ => lit (r"aa")) 7 (lit (r"bb"))
    (some 3) (by decide)⟩

/-- C10: save_state writes the complete merged state (defaults overlaid with
the given dict) to a fresh temporary and renames it over the state file in a
single step: at every step boundary the state file holds either the previous
content or the complete merged content; before the rename it is exactly the
previous content; after the final step it is the merged content and the
temporary is gone. -/
theorem save_state_atomic_visibility (s : GivenState) (old : Option FileContent) (n : Nat) :
    ((save_state_fs_at s old n).stateFile = old ∨
      (save_state_fs_at s old n).stateFile = some (.jsonState (merge_defaults s))) ∧
    (n < 4 → (save_state_fs_at s old n).stateFile = old) ∧
    save_state_fs_at s old 4 =
      { stateFile := some (.jsonState (merge_defaults s)), tempFile := none } := by
  refine ⟨?_, ?_, rfl⟩
  · match n with
    | 0 => exact Or.inl rfl
    | 1 => exact Or.inl rfl
    | 2 => exact Or.inl rfl
    | 3 => exact Or.inl rfl
    | (k + 4) => exact Or.inr rfl
  · intro hn
    match n, hn with
    | 0, _ => rfl
    | 1, _ => rfl
    | 2, _ => rfl
    | 3, _ => rfl

/-- Witness for the C10 theorem: mid-write (step 2) the state file still holds
the old raw content. -/
theorem save_state_atomic_visibility_witness :
    (save_state_fs_at
      { last_check_at := some (some (lit (r"t"))), last_remote_sha := none,
        last_installed_sha := none, deferred_sha := none, last_error := none }
      (some (.raw 5)) 2).stateFile = some (.raw 5) :=
  (save_state_atomic_visibility
    { last_check_at := some (some (lit (r"t"))), last_remote_sha := none,
      last_installed_sha := none, deferred_sha := none, last_error := none }
    (some (.raw 5)) 2).2.1 (by decide)

/-- C4 counterexample: a manifest whose payload_sha256 value is 64 uppercase
hex characters is accepted by validate_manifest (the code strips and
lowercases before the hex check), even though the field value is not a
64-character lowercase hex string, which the claim says forces rejection. -/
theorem validate_manifest_accepts_uppercase_sha :
    (validate_manifest
      { runtime_version := .str (lit (r"1.0"))
        payload_url := .str (lit (r"https://example.com/payload.tar.gz"))
        payload_sha256 := .str (lit (r"AAAAAAAAAAAAAAAAAAAAAAAAAAAAAAAAAAAAAAAAAAAAAAAAAAAAAAAAAAAAAAAA")) }).isOk = true ∧
    isHex64 (lit (r"AAAAAAAAAAAAAAAAAAAAAAAAAAAAAAAAAAAAAAAAAAAAAAAAAAAAAAAAAAAAAAAA")) = false := by
  decide

/-- C4 (amended): validate_manifest rejects a manifest exactly when a required
field is missing or not a non-empty string, or runtime_version does not parse
as a dotted numeric version, or payload_sha256 after stripping surrounding
whitespace and lowercasing is not exactly 64 hex characters, or payload_url
does not begin with https; validation is all-or-nothing. -/
theorem validate_manifest_rejection_characterization (m : RawManifest) :
    (validate_manifest m).isOk = !(manifest_rejected_spec m) := by
  cases hs : manifest_rejected_spec m
  · have h := (validate_manifest_ok_iff m).mpr hs
    rw [h]
    rfl
  · cases hv : validate_manifest m with
    | error e => rfl
    | ok u =>
      cases u
      have hmp := (validate_manifest_ok_iff m).mp hv
      rw [hs] at hmp
      exact Bool.noConfusion hmp

/-- C5 counterexample: runtime_installed returns true when the venv python and
both marker files exist even though the version marker content is not a
syntactically valid dotted numeric version. -/
theorem runtime_installed_ignores_version_content :
    runtime_installed
      { venvPy := true, installMarker := true,
        versionMarker := some (lit (r"not a version")) } = true ∧
    versionFormatOk (lit (r"not a version")) = false ∧
    versionFormatOk (strip (lit (r"not a version"))) = false := by
  decide

/-- C5 (amended): runtime_installed checks only that the venv python, the
installed marker and the version marker exist — the version marker content is
never inspected (validity is content-independent); and whenever
runtime_installed is false, run_startup_update_flow returns bootstrap_required
and leaves the filesystem untouched, regardless of any other state. -/
theorem runtime_installed_markers_and_bootstrap (p mk : Bool) (v1 v2 : List Char)
    (env : FlowEnv) (fs : FlowFS) (perform_update : Bool)
    (hNot : runtime_installed env.rfs = false) :
    runtime_installed { venvPy := p, installMarker := mk, versionMarker := some v1 } =
      runtime_installed { venvPy := p, installMarker := mk, versionMarker := some v2 } ∧
    (∀ rfs : RuntimeFS, rfs.installMarker = false → runtime_installed rfs = false) ∧
    ∃ d, run_startup_update_flow env fs perform_update = .ok (d, fs) ∧
      d.action = r"bootstrap_required" := by
  refine ⟨by simp [runtime_installed], ?_, ?_⟩
  · intro rfs h
    simp [runtime_installed, h]
  · have hred : run_startup_update_flow env fs perform_update =
        .ok ({ action := r"bootstrap_required",
               messages := [lit (r"Update Check: no runtime installed, running setup.")],
               error := none, manifest := none }, fs) := by
      unfold run_startup_update_flow
      simp [hNot]
    exact ⟨_, hred, rfl⟩

/-- Witness for the amended C5 theorem: an absent installed marker yields
bootstrap_required. -/
theorem runtime_installed_markers_and_bootstrap_witness :
    runtime_installed
      ({ venvPy := true, installMarker := false, versionMarker := some (lit (r"0.1.9")) } :
        RuntimeFS) = false ∧
    (runtime_installed
        { venvPy := true, installMarker := true, versionMarker := some (lit (r"0.1.9")) } =
      runtime_installed
        { venvPy := true, installMarker := true, versionMarker := some (lit (r"garbage")) } ∧
    (∀ rfs : RuntimeFS, rfs.installMarker = false → runtime_installed rfs = false) ∧
    ∃ d, run_startup_update_flow
        { rfs :=
            { venvPy := true, installMarker := false, versionMarker := some (lit (r"0.1.9")) }
          fetch := .network (lit (r"dns"))
          download := .ok 0
          sha256hex := fun _ => []
          install := .ok 1 }
        { payloadFile := none, active := some 9 } true =
          .ok (d, { payloadFile := none, active := some 9 }) ∧
      d.action = r"bootstrap_required") :=
  ⟨by decide, runtime_installed_markers_and_bootstrap true true (lit (r"0.1.9"))
    (lit (r"garbage")) _ _ true (by decide)⟩

theorem infix_expected_hashMismatchMsg (e a : List Char) : e <:+: hashMismatchMsg e a :=
  ⟨lit (r"Payload hash mismatch. expected="), lit (r" actual=") ++ a, by
    simp [hashMismatchMsg, List.append_assoc]⟩

theorem infix_actual_hashMismatchMsg (e a : List Char) : a <:+: hashMismatchMsg e a :=
  ⟨lit (r"Payload hash mismatch. expected=") ++ e ++ lit (r" actual="), [], by
    simp [hashMismatchMsg, List.append_assoc]⟩

/-- C1: with a runtime installed, a valid and strictly newer manifest, and a
completed download whose computed digest differs from the declared one, the
startup flow returns launch_blocked (never falling back to the installed
runtime), leaves the active installation directory unchanged, and surfaces an
error message containing both the expected and the actual digest. -/
theorem startup_flow_hash_mismatch_blocks (env : FlowEnv) (fs : FlowFS) (m : RawManifest)
    (payload : Bytes)
    (hInst : runtime_installed env.rfs = true)
    (hFetch : env.fetch = .ok m)
    (hValid : validate_manifest m = .ok ())
    (hNewer : is_remote_newer (normalize_compare_version (read_local_runtime_version env.rfs))
      (strip (getStr m.runtime_version)) = some true)
    (hDl : env.download = .ok payload)
    (hMism : lower (env.sha256hex payload) ≠ lower (strip (getStr m.payload_sha256))) :
    ∃ d fs1, run_startup_update_flow env fs true = .ok (d, fs1) ∧
      d.action = r"launch_blocked" ∧
      fs1.active = fs.active ∧
      ∃ emsg, d.error = some emsg ∧
        lower (strip (getStr m.payload_sha256)) <:+: emsg ∧
        lower (env.sha256hex payload) <:+: emsg := by
  have hhex := (validate_manifest_ok_conditions m hValid).2.2.2.2.1
  have hall : (lower (strip (getStr m.payload_sha256))).all isHexLowerChar = true := by
    simp only [isHex64, Bool.and_eq_true] at hhex
    exact hhex.2
  have hfix : lower (strip (lower (strip (getStr m.payload_sha256)))) =
      lower (strip (getStr m.payload_sha256)) := by
    rw [strip_eq_self_of_hex _ hall, lower_eq_self_of_hex _ hall]
  unfold run_startup_update_flow
  rw [if_neg (not_not_intro hInst)]
  simp only [hFetch, hValid, download_payload_with_hash, hDl, hfix, hNewer]
  rw [if_pos hMism]
  exact ⟨_, _, rfl, rfl, rfl, _, rfl,
    infix_expected_hashMismatchMsg _ _, infix_actual_hashMismatchMsg _ _⟩

/-- Witness for the C1 theorem: local 0.1.5, valid remote manifest 0.1.9,
download completes but hashes to the wrong digest. -/
theorem startup_flow_hash_mismatch_blocks_witness :
    runtime_installed wEnvMismatch.rfs = true ∧
    wEnvMismatch.fetch = .ok wManifest ∧
    validate_manifest wManifest = .ok () ∧
    is_remote_newer (normalize_compare_version (read_local_runtime_version wEnvMismatch.rfs))
      (strip (getStr wManifest.runtime_version)) = some true ∧
    wEnvMismatch.download = .ok 7 ∧
    lower (wEnvMismatch.sha256hex 7) ≠ lower (strip (getStr wManifest.payload_sha256)) ∧
    (∃ d fs1, run_startup_update_flow wEnvMismatch wFs true = .ok (d, fs1) ∧
      d.action = r"launch_blocked" ∧
      fs1.active = wFs.active ∧
      ∃ emsg, d.error = some emsg ∧
        lower (strip (getStr wManifest.payload_sha256)) <:+: emsg ∧
        lower (wEnvMismatch.sha256hex 7) <:+: emsg) :=
  ⟨by decide, rfl, rfl, by decide, rfl, by decide,
    startup_flow_hash_mismatch_blocks wEnvMismatch wFs wManifest 7 (by decide) rfl rfl
      (by decide) rfl (by decide)⟩

/-- C6: with a runtime installed, a manifest fetch network failure, a manifest
failing validation, or a remote version that is not strictly newer each yield
the decision launch_current with the filesystem untouched, without consulting
the download, hash or install oracles (the result depends only on the markers
and the fetch outcome); in the network case the messages include an offline
message naming the local version. -/
theorem startup_flow_degrades_gracefully (env : FlowEnv) (fs : FlowFS)
    (hInst : runtime_installed env.rfs = true) :
    (∀ err, env.fetch = .network err →
      (∃ d, run_startup_update_flow env fs true = .ok (d, fs) ∧
        d.action = r"launch_current" ∧
        offlineMsg (read_local_runtime_version env.rfs) err ∈ d.messages) ∧
      (∀ env2 : FlowEnv, env2.rfs = env.rfs → env2.fetch = env.fetch →
        run_startup_update_flow env2 fs true = run_startup_update_flow env fs true)) ∧
    (∀ m e, env.fetch = .ok m → validate_manifest m = .error e →
      (∃ d, run_startup_update_flow env fs true = .ok (d, fs) ∧
        d.action = r"launch_current") ∧
      (∀ env2 : FlowEnv, env2.rfs = env.rfs → env2.fetch = env.fetch →
        run_startup_update_flow env2 fs true = run_startup_update_flow env fs true)) ∧
    (∀ m, env.fetch = .ok m → validate_manifest m = .ok () →
      is_remote_newer (normalize_compare_version (read_local_runtime_version env.rfs))
        (strip (getStr m.runtime_version)) = some false →
      (∃ d, run_startup_update_flow env fs true = .ok (d, fs) ∧
        d.action = r"launch_current") ∧
      (∀ env2 : FlowEnv, env2.rfs = env.rfs → env2.fetch = env.fetch →
        run_startup_update_flow env2 fs true = run_startup_update_flow env fs true)) := by
  refine ⟨?_, ?_, ?_⟩
  · intro err hf
    constructor
    · unfold run_startup_update_flow
      rw [if_neg (not_not_intro hInst)]
      simp only [hf]
      refine ⟨_, rfl, rfl, ?_⟩
      simp
    · intro env2 h2r h2f
      unfold run_startup_update_flow
      rw [h2r, h2f]
      simp [hf]
  · intro m e hf hvm
    constructor
    · unfold run_startup_update_flow
      rw [if_neg (not_not_intro hInst)]
      simp only [hf, hvm]
      exact ⟨_, rfl, rfl⟩
    · intro env2 h2r h2f
      unfold run_startup_update_flow
      rw [h2r, h2f]
      simp [hf, hvm]
  · intro m hf hvm hnew
    constructor
    · unfold run_startup_update_flow
      rw [if_neg (not_not_intro hInst)]
      simp only [hf, hvm, hnew]
      split
      · exact ⟨_, rfl, rfl⟩
      · rename_i hcontra
        simp at hcontra
    · intro env2 h2r h2f
      unfold run_startup_update_flow
      rw [h2r, h2f]
      simp [hf, hvm, hnew]

/-- Witness for the C6 theorem: the manifest fetch times out on an installed
runtime at version 0.1.5. -/
theorem startup_flow_degrades_gracefully_witness :
    runtime_installed wEnvOffline.rfs = true ∧
    wEnvOffline.fetch = .network (lit (r"timed out")) ∧
    ((∃ d, run_startup_update_flow wEnvOffline wFs true = .ok (d, wFs) ∧
        d.action = r"launch_current" ∧
        offlineMsg (read_local_runtime_version wEnvOffline.rfs) (lit (r"timed out")) ∈
          d.messages) ∧
      (∀ env2 : FlowEnv, env2.rfs = wEnvOffline.rfs → env2.fetch = wEnvOffline.fetch →
        run_startup_update_flow env2 wFs true = run_startup_update_flow wEnvOffline wFs true)) :=
  ⟨by decide, rfl,
    (startup_flow_degrades_gracefully wEnvOffline wFs (by decide)).1 (lit (r"timed out")) rfl⟩

/-- C9: with force false and the persisted last-check timestamp within the
minimum interval, check_for_update performs no remote registry query (the
result is independent of the remote oracle), persists nothing, reports
update_available exactly when the cached last_remote_sha is a syntactically
valid 40-hex id differing from the local sha, and any local sha candidate
that is not exactly 40 lowercase hex characters is treated as absent. -/
theorem check_for_update_rate_limited (env : CheckEnv) (state : MState)
    (min_interval_hours : Int)
    (hNo : should_check_now state env.now min_interval_hours = false) :
    ((check_for_update env state min_interval_hours false).1.status = r"update_available" ↔
      (is_valid_sha state.last_remote_sha = true ∧
        state.last_remote_sha ≠ localShaComputed env.localLookup state)) ∧
    (check_for_update env state min_interval_hours false).2 = state ∧
    (∀ r2, check_for_update { env with remote := r2 } state min_interval_hours false =
      check_for_update env state min_interval_hours false) ∧
    (∀ x, localShaComputed env.localLookup state = some x → is_valid_sha (some x) = true) := by
  refine ⟨?_, ?_, ?_, ?_⟩
  · unfold check_for_update
    cases hv : is_valid_sha state.last_remote_sha
    · cases hl : (localShaComputed env.localLookup state).isSome
      · simp [hNo, hv, hl]
      · simp [hNo, hv, hl]
    · by_cases hne : state.last_remote_sha ≠ localShaComputed env.localLookup state
      · simp [hNo, hv, hne]
      · have heq : state.last_remote_sha = localShaComputed env.localLookup state :=
          not_not.mp hne
        cases hk : state.last_remote_sha with
        | none =>
          rw [hk] at hv
          exact absurd hv (by decide)
        | some k =>
          have hlk : localShaComputed env.localLookup state = some k := by
            rw [← heq]
            exact hk
          simp [hNo, hv, hk, hlk]
  · unfold check_for_update
    simp [hNo]
    split
    · rfl
    · split <;> rfl
  · intro r2
    unfold check_for_update
    simp [hNo]
  · intro x hx
    simp only [localShaComputed] at hx
    split at hx
    · rename_i hvc
      rw [hx] at hvc
      exact hvc
    · exact Option.noConfusion hx

/-- Witness for the C9 theorem: a recent check with a cached differing remote
revision. -/
theorem check_for_update_rate_limited_witness :
    should_check_now wState wEnvCheck.now 24 = false ∧
    (((check_for_update wEnvCheck wState 24 false).1.status = r"update_available" ↔
        (is_valid_sha wState.last_remote_sha = true ∧
          wState.last_remote_sha ≠ localShaComputed wEnvCheck.localLookup wState)) ∧
      (check_for_update wEnvCheck wState 24 false).2 = wState ∧
      (∀ r2, check_for_update { wEnvCheck with remote := r2 } wState 24 false =
        check_for_update wEnvCheck wState 24 false) ∧
      (∀ x, localShaComputed wEnvCheck.localLookup wState = some x →
        is_valid_sha (some x) = true)) :=
  ⟨by decide, check_for_update_rate_limited wEnvCheck wState 24 (by decide)⟩
